import Mathlib

set_option maxHeartbeats 1000000
set_option linter.unusedVariables false

/-! Verification of the docling-service document parsing microservice
(src/docling-service/main.py): a shallow embedding of the CSV-to-markdown
formatter, the upload validation gate, the Docling adapter control flow and
the dispatch of the parse endpoint, together with theorems about them. -/

/-- Python str.strip on a list of characters: remove leading and trailing
whitespace. -/
def stripChars (l : List Char) : List Char :=
  ((l.dropWhile Char.isWhitespace).reverse.dropWhile Char.isWhitespace).reverse

/-- Python s.split with a newline separator: the segments between newline
characters, with the empty segment list for the empty string being one empty
segment, as in Python. -/
def splitOnNewline : List Char → List (List Char)
  | [] => [[]]
  | c :: rest =>
    if c = '\n' then [] :: splitOnNewline rest
    else
      match splitOnNewline rest with
      | [] => [[c]]
      | h :: t => (c :: h) :: t

/-- Python str.lower restricted to ASCII case folding. -/
def lowerStr (s : String) : String := String.mk (s.data.map Char.toLower)

/-- Python str.endswith. -/
def endsWithStr (s post : String) : Bool := List.isSuffixOf post.data s.data

/-- Helper for Python substring membership: does the needle occur inside the
haystack as a contiguous block. -/
def containsSubChars (needle : List Char) : List Char → Bool
  | [] => needle.isEmpty
  | c :: rest => List.isPrefixOf needle (c :: rest) || containsSubChars needle rest

/-- Python substring membership test, the in operator on strings. -/
def containsSubStr (needle hay : String) : Bool := containsSubChars needle.data hay.data

/-- Python sep.join on a list of strings. -/
def joinSep (sep : String) : List String → String
  | [] => ""
  | [x] => x
  | x :: y :: xs => x ++ sep ++ joinSep sep (y :: xs)

/-- Concatenation of a list of strings. -/
def strConcat : List String → String
  | [] => ""
  | s :: rest => s ++ strConcat rest

/-- The character loop of the inner parse_csv_line of main.py: a double quote
toggles in_quotes and is never emitted, a comma outside quotes flushes the
current cell, any other character is appended to the current cell; the final
cell is flushed at line end, and every flushed cell is stripped of
surrounding whitespace. -/
def parseLineLoop : List Char → Bool → List Char → List String → List String
  | [], _, current, result => result ++ [String.mk (stripChars current)]
  | c :: rest, in_quotes, current, result =>
    if c = '"' then
      parseLineLoop rest (!in_quotes) current result
    else if c = ',' ∧ in_quotes = false then
      parseLineLoop rest in_quotes [] (result ++ [String.mk (stripChars current)])
    else
      parseLineLoop rest in_quotes (current ++ [c]) result

/-- parse_csv_line from main.py. -/
def parse_csv_line (line : List Char) : List String :=
  parseLineLoop line false [] []

/-- The retained lines of the CSV input: split on newline, strip each line,
keep only the lines that are nonempty after stripping. -/
def csvLines (csv_content : String) : List (List Char) :=
  (splitOnNewline csv_content.data).filterMap
    (fun line => let s := stripChars line; if s = [] then none else some s)

/-- All parsed rows of the CSV input. -/
def csvRows (csv_content : String) : List (List String) :=
  (csvLines csv_content).map parse_csv_line

/-- The markdown header row of the emitted table. -/
def headerLine (headers : List String) : String :=
  "| " ++ joinSep " | " headers ++ " |\n"

/-- The markdown separator row of the emitted table. -/
def sepLine (headers : List String) : String :=
  "|" ++ joinSep "|" (headers.map (fun _ => "---")) ++ "|\n"

/-- One emitted markdown data row. -/
def rowLine (row : List String) : String :=
  "| " ++ joinSep " | " row ++ " |\n"

/-- parse_csv_to_markdown from main.py: retained lines, parsed rows, heading,
header row, separator row, then one row per subsequent parsed row whose cell
count equals the header cell count. -/
def parse_csv_to_markdown (csv_content : String) : String :=
  let lines := csvLines csv_content
  if lines = [] then ""
  else
    let rows := lines.map parse_csv_line
    match rows with
    | [] => ""
    | headers :: rest =>
      rest.foldl
        (fun md row => if row.length = headers.length then md ++ rowLine row else md)
        ("## Document Data\n\n" ++ headerLine headers ++ sepLine headers)

/-- Header cells of the CSV table: the first parsed row. -/
def csvHeaderCells (csv_content : String) : List String :=
  (csvRows csv_content).headD []

/-- The data rows that parse_csv_to_markdown emits: the parsed rows after the
header whose cell count equals the header cell count. -/
def csvDataRowsOut (csv_content : String) : List (List String) :=
  match csvRows csv_content with
  | [] => []
  | headers :: rest => rest.filter (fun row => row.length = headers.length)

/-- MAX_FILE_SIZE from main.py: 10 MiB in bytes. -/
def MAX_FILE_SIZE : Nat := 10 * 1024 * 1024

/-- valid_extensions from main.py. -/
def valid_extensions : List String := [".pdf", ".csv", ".png", ".jpg", ".jpeg"]

/-- valid_types from main.py. -/
def valid_types : List String :=
  ["application/pdf", "text/csv", "image/png", "image/jpeg", "image/jpg"]

/-- Rendering of size divided by 2 to the 20th to two decimal places, as the
Python format of file_size_mb with .2f produces it: dividing an integer below
2 to the 53rd by a power of two is exact in binary floating point, and
fixed-point formatting rounds the exact value with ties to even. -/
def formatMB (size : Nat) : String :=
  let num := size * 100
  let d := 1048576
  let q := num / d
  let r := num % d
  let rounded :=
    if d < 2 * r then q + 1
    else if 2 * r < d then q
    else if q % 2 = 0 then q else q + 1
  let whole := rounded / 100
  let frac := rounded % 100
  toString whole ++ "." ++ (if frac < 10 then "0" else "") ++ toString frac

/-- Shape of the value returned by converter.convert, as probed by the
hasattr chain of main.py: a result with a document exposing a markdown
export, a result with a markdown field, or anything else reached through a
string coercion of the whole result. -/
inductive DoclingResult
  | withDocument (md : String)
  | withMarkdown (md : String)
  | opaqueResult (s : String)
deriving DecidableEq

/-- The hasattr fallback chain of main.py extracting markdown from a Docling
result. -/
def extractMarkdown : DoclingResult → String
  | .withDocument md => md
  | .withMarkdown md => md
  | .opaqueResult s => s

/-- Observable side effects of one conversion call: whether a temporary file
was created, whether it was deleted, and whether converter.convert ran. -/
structure ConvEffects where
  tmpCreated : Bool
  tmpDeleted : Bool
  converterCalled : Bool
deriving DecidableEq

/-- Effects of a request path that never touches temporary storage or the
converter. -/
def noConvEffects : ConvEffects := ⟨false, false, false⟩

/-- The distinct HTTPException raise sites of main.py, each carrying the data
its detail message interpolates. -/
inductive ParseError
  | fileTooLarge (size : Nat)
  | unsupportedType
  | doclingUnavailablePdf
  | doclingUnavailableImage
  | pdfConversionFailed (msg : String)
  | imageConversionFailed (msg : String)
  | unsupportedDispatch
  | internalError (msg : String)
deriving DecidableEq

/-- The status_code of each HTTPException raise site of main.py. -/
def ParseError.status : ParseError → Nat
  | .fileTooLarge _ => 400
  | .unsupportedType => 400
  | .doclingUnavailablePdf => 503
  | .doclingUnavailableImage => 503
  | .pdfConversionFailed _ => 500
  | .imageConversionFailed _ => 500
  | .unsupportedDispatch => 400
  | .internalError _ => 500

/-- The detail string of each HTTPException raise site, with the literal
message text of main.py. -/
def ParseError.detail : ParseError → String
  | .fileTooLarge size =>
      "File size exceeds 10MB limit. Your file is " ++ formatMB size
        ++ "MB. Please upload a smaller file."
  | .unsupportedType =>
      "Only PNG, JPG, CSV, and PDF files are allowed. Please upload a supported file type."
  | .doclingUnavailablePdf =>
      "Docling is not available. Please install docling: pip install docling"
  | .doclingUnavailableImage =>
      "Image parsing is currently unavailable. Docling service is not initialized. Please contact support or try uploading a CSV file instead."
  | .pdfConversionFailed msg => "Failed to parse PDF: " ++ msg
  | .imageConversionFailed msg => "Failed to parse image: " ++ msg
  | .unsupportedDispatch =>
      "Unsupported file type. Please upload PDF, CSV, or Image files only."
  | .internalError msg => "Failed to parse document: " ++ msg

/-- Process state relevant to one request: the DOCLING_AVAILABLE flag,
whether the converter object was constructed at startup, and the outcome
converter.convert would produce on the stored temporary file, either an
exception message or a result value. -/
structure DoclingEnv where
  doclingAvailable : Bool
  converterInit : Bool
  convertResult : Except String DoclingResult

/-- parse_pdf_with_docling from main.py: availability check before any work,
then temporary file, conversion, markdown extraction with an empty-result
placeholder, cleanup of the temporary file on the finally path, and
translation of converter exceptions into a 500 error. The temporary file
path itself is not observable here, only its creation and deletion. -/
def parse_pdf_with_docling (env : DoclingEnv) (file_content : List Nat) (filename : String) :
    Except ParseError String × ConvEffects :=
  if env.doclingAvailable = false ∨ env.converterInit = false then
    (.error .doclingUnavailablePdf, noConvEffects)
  else
    match env.convertResult with
    | .error msg => (.error (.pdfConversionFailed msg), ⟨true, true, true⟩)
    | .ok result =>
      let markdown := extractMarkdown result
      (.ok (if markdown = "" then
              "## PDF Document: " ++ filename ++ "\n\n*No text extracted from PDF.*"
            else markdown),
       ⟨true, true, true⟩)

/-- parse_image_with_docling from main.py, structured like the PDF variant
with its own messages; the temporary file suffix computed from the filename
extension is not observable here, only the creation and deletion of the
temporary file. -/
def parse_image_with_docling (env : DoclingEnv) (file_content : List Nat) (filename : String) :
    Except ParseError String × ConvEffects :=
  if env.doclingAvailable = false ∨ env.converterInit = false then
    (.error .doclingUnavailableImage, noConvEffects)
  else
    match env.convertResult with
    | .error msg => (.error (.imageConversionFailed msg), ⟨true, true, true⟩)
    | .ok result =>
      let markdown := extractMarkdown result
      (.ok (if markdown = "" then
              "## Image Document: " ++ filename ++ "\n\n*No text extracted from image.*"
            else markdown),
       ⟨true, true, true⟩)

/-- State of the incremental UTF-8 decoder: continuation bytes still needed,
accumulated code point bits, and the admissible range for the next byte. -/
structure DecState where
  need : Nat
  acc : Nat
  lo : Nat
  hi : Nat
deriving DecidableEq

/-- One byte of strict UTF-8 decoding as Python bytes.decode performs it:
rejects lone and misplaced continuation bytes, overlong encodings, surrogate
code points and code points above 0x10FFFF. -/
def utf8Step (s : DecState) (b : Nat) : Option (DecState × Option Char) :=
  if s.need = 0 then
    if b < 128 then some (s, some (Char.ofNat b))
    else if 194 ≤ b ∧ b ≤ 223 then some (⟨1, b - 192, 128, 191⟩, none)
    else if b = 224 then some (⟨2, 0, 160, 191⟩, none)
    else if b = 237 then some (⟨2, 13, 128, 159⟩, none)
    else if 224 ≤ b ∧ b ≤ 239 then some (⟨2, b - 224, 128, 191⟩, none)
    else if b = 240 then some (⟨3, 0, 144, 191⟩, none)
    else if b = 244 then some (⟨3, 4, 128, 143⟩, none)
    else if 240 ≤ b ∧ b ≤ 244 then some (⟨3, b - 240, 128, 191⟩, none)
    else none
  else
    if s.lo ≤ b ∧ b ≤ s.hi then
      let acc2 := s.acc * 64 + (b - 128)
      if s.need = 1 then some (⟨0, 0, 0, 0⟩, some (Char.ofNat acc2))
      else some (⟨s.need - 1, acc2, 128, 191⟩, none)
    else none

/-- Run the UTF-8 decoder over the remaining bytes from a given state. -/
def utf8DecodeFrom : DecState → List Nat → Option (List Char)
  | s, [] => if s.need = 0 then some [] else none
  | s, b :: rest =>
    match utf8Step s b with
    | none => none
    | some (s2, oc) =>
      match utf8DecodeFrom s2 rest with
      | none => none
      | some cs =>
        some (match oc with | some c => c :: cs | none => cs)

/-- Python bytes.decode for utf-8: the decoded string, or none when the byte
sequence is not valid UTF-8, which raises UnicodeDecodeError in Python. -/
def utf8Decode (bytes : List Nat) : Option String :=
  (utf8DecodeFrom ⟨0, 0, 0, 0⟩ bytes).map String.mk

/-- Stands for str(e) of the UnicodeDecodeError raised by bytes.decode; the
exact text is produced by the Python runtime and is not modelled, only the
fixed prefix that main.py prepends to it matters to the theorems below. -/
def decodeErrorMessage : String := "utf-8 codec error"

/-- An uploaded multipart file as FastAPI hands it to parse_document: a
possibly missing filename, a possibly missing declared content type, and the
raw byte content. -/
structure ReqFile where
  filename? : Option String
  contentType? : Option String
  content : List Nat

/-- Python x or y on strings: y when x is empty, otherwise x. -/
def pyOrStr (x y : String) : String := if x = "" then y else x

/-- The filename binding of parse_document: file.filename or "document",
where Python treats both a missing and an empty filename as falsy. -/
def effFilename (f : ReqFile) : String := pyOrStr (f.filename?.getD "") "document"

/-- The content_type binding of parse_document: file.content_type or the
empty string. -/
def effContentType (f : ReqFile) : String := pyOrStr (f.contentType?.getD "") ""

/-- has_valid_extension from parse_document. -/
def hasValidExtension (filename : String) : Bool :=
  valid_extensions.any (fun ext => endsWithStr (lowerStr filename) ext)

/-- has_valid_type from parse_document. -/
def hasValidType (content_type : String) : Bool :=
  valid_types.any (fun t => lowerStr content_type == t)

/-- The CSV dispatch condition of parse_document. -/
def csvCond (filename content_type : String) : Bool :=
  endsWithStr (lowerStr filename) ".csv" || containsSubStr "csv" (lowerStr content_type)

/-- The PDF dispatch condition of parse_document. -/
def pdfCond (filename content_type : String) : Bool :=
  endsWithStr (lowerStr filename) ".pdf" || containsSubStr "pdf" (lowerStr content_type)

/-- The image dispatch condition of parse_document. -/
def imageCond (filename content_type : String) : Bool :=
  ([".png", ".jpg", ".jpeg"].any (fun ext => endsWithStr (lowerStr filename) ext))
    || ["image/png", "image/jpeg", "image/jpg"].any (fun t => lowerStr content_type == t)

/-- The HTTP-observable outcome of parse_document: the success JSON with its
metadata fields, or the error of the terminating HTTPException. -/
inductive ParseResponse
  | ok (markdown fileName fileType : String) (fileSize : Nat)
  | err (e : ParseError)
deriving DecidableEq

/-- parse_document from main.py: size gate, extension-or-type gate, then
priority dispatch CSV before PDF before image, with the final unsupported
branch; a UnicodeDecodeError on the CSV path falls through to the generic
internal-error handler. The second component records the temporary-file and
converter effects of the request. -/
def parse_document (env : DoclingEnv) (file : ReqFile) : ParseResponse × ConvEffects :=
  let file_content := file.content
  let filename := effFilename file
  let content_type := effContentType file
  let file_size := file_content.length
  if MAX_FILE_SIZE < file_size then
    (.err (.fileTooLarge file_size), noConvEffects)
  else if hasValidExtension filename = false ∧ hasValidType content_type = false then
    (.err .unsupportedType, noConvEffects)
  else if csvCond filename content_type then
    match utf8Decode file_content with
    | none => (.err (.internalError decodeErrorMessage), noConvEffects)
    | some csv_text =>
      (.ok (parse_csv_to_markdown csv_text) filename "text/csv" file_content.length,
       noConvEffects)
  else if pdfCond filename content_type then
    match parse_pdf_with_docling env file_content filename with
    | (.error e, fx) => (.err e, fx)
    | (.ok markdown, fx) =>
      (.ok markdown filename "application/pdf" file_content.length, fx)
  else if imageCond filename content_type then
    match parse_image_with_docling env file_content filename with
    | (.error e, fx) => (.err e, fx)
    | (.ok markdown, fx) =>
      (.ok markdown filename (pyOrStr content_type "image") file_content.length, fx)
  else
    (.err .unsupportedDispatch, noConvEffects)

/-- The response the CSV branch of parse_document produces for a file. -/
def csvResult (file : ReqFile) : ParseResponse :=
  match utf8Decode file.content with
  | none => .err (.internalError decodeErrorMessage)
  | some csv_text =>
    .ok (parse_csv_to_markdown csv_text) (effFilename file) "text/csv" file.content.length

/-- The response the PDF branch of parse_document produces for a file. -/
def pdfResult (env : DoclingEnv) (file : ReqFile) : ParseResponse :=
  match (parse_pdf_with_docling env file.content (effFilename file)).1 with
  | .error e => .err e
  | .ok markdown => .ok markdown (effFilename file) "application/pdf" file.content.length

/-- The response the image branch of parse_document produces for a file. -/
def imageResult (env : DoclingEnv) (file : ReqFile) : ParseResponse :=
  match (parse_image_with_docling env file.content (effFilename file)).1 with
  | .error e => .err e
  | .ok markdown =>
    .ok markdown (effFilename file) (pyOrStr (effContentType file) "image")
      file.content.length

/-! Supporting lemmas for the CSV formatter. -/

/-- A member of a stripped character list is a member of the original. -/
lemma mem_stripChars {a : Char} {l : List Char} (h : a ∈ stripChars l) : a ∈ l := by
  unfold stripChars at h
  rw [List.mem_reverse] at h
  have h2 := (List.dropWhile_suffix _).subset h
  rw [List.mem_reverse] at h2
  exact (List.dropWhile_suffix _).subset h2

/-- The head surviving dropWhile fails the dropped predicate. -/
lemma head?_dropWhile (p : Char → Bool) (l : List Char) :
    ∀ {a}, (l.dropWhile p).head? = some a → p a = false := by
  induction l with
  | nil => intro a h; simp [List.dropWhile] at h
  | cons c t ih =>
    intro a h
    cases hpc : p c with
    | true => rw [List.dropWhile_cons_of_pos (by simp [hpc])] at h; exact ih h
    | false =>
      rw [List.dropWhile_cons_of_neg (by simp [hpc])] at h
      simp at h
      exact h ▸ hpc

/-- dropWhile is the identity when the head already fails the predicate. -/
lemma dropWhile_eq_self (p : Char → Bool) (l : List Char)
    (h : ∀ a, l.head? = some a → p a = false) : l.dropWhile p = l := by
  cases l with
  | nil => rfl
  | cons c t =>
    have hc := h c rfl
    exact List.dropWhile_cons_of_neg (by simp [hc])

/-- dropWhile only removes elements from the front, so a nonempty result has
the same last element. -/
lemma getLast?_dropWhile (p : Char → Bool) (l : List Char)
    (h : l.dropWhile p ≠ []) : (l.dropWhile p).getLast? = l.getLast? := by
  induction l with
  | nil => simp [List.dropWhile] at h
  | cons c t ih =>
    cases hpc : p c with
    | false => rw [List.dropWhile_cons_of_neg (by simp [hpc])]
    | true =>
      rw [List.dropWhile_cons_of_pos (by simp [hpc])] at h ⊢
      have ht : t ≠ [] := by
        intro he; rw [he] at h; simp [List.dropWhile] at h
      rw [ih h]
      cases t with
      | nil => exact absurd rfl ht
      | cons b u => simp [List.getLast?_cons_cons]

/-- The first character of a stripped list is not whitespace. -/
lemma head?_stripChars (l : List Char) :
    ∀ {a}, (stripChars l).head? = some a → a.isWhitespace = false := by
  intro a h
  unfold stripChars at h
  rw [List.head?_reverse] at h
  have hne : (((l.dropWhile Char.isWhitespace).reverse).dropWhile Char.isWhitespace) ≠ [] := by
    intro he; rw [he] at h; simp at h
  rw [getLast?_dropWhile _ _ hne] at h
  rw [List.getLast?_reverse] at h
  exact head?_dropWhile _ _ h

/-- The last character of a stripped list is not whitespace. -/
lemma getLast?_stripChars (l : List Char) :
    ∀ {a}, (stripChars l).getLast? = some a → a.isWhitespace = false := by
  intro a h
  unfold stripChars at h
  rw [List.getLast?_reverse] at h
  exact head?_dropWhile _ _ h

/-- Stripping is the identity on a list with no surrounding whitespace. -/
lemma stripChars_eq_self (l : List Char)
    (h1 : ∀ a, l.head? = some a → a.isWhitespace = false)
    (h2 : ∀ a, l.getLast? = some a → a.isWhitespace = false) : stripChars l = l := by
  unfold stripChars
  rw [dropWhile_eq_self _ _ h1]
  rw [dropWhile_eq_self _ _ (fun a ha => h2 a (by rwa [List.head?_reverse] at ha))]
  exact List.reverse_reverse l

/-- Stripping is idempotent. -/
lemma stripChars_idem (l : List Char) : stripChars (stripChars l) = stripChars l :=
  stripChars_eq_self _ (fun _ h => head?_stripChars l h) (fun _ h => getLast?_stripChars l h)

/-- Every cell the scanner loop flushes contains no double quote and is a
fixed point of stripping, provided the accumulator already satisfies this. -/
lemma parseLineLoop_cells :
    ∀ (cs : List Char) (q : Bool) (current : List Char) (result : List String),
      (∀ s ∈ result, '"' ∉ s.data ∧ stripChars s.data = s.data) →
      '"' ∉ current →
      ∀ s ∈ parseLineLoop cs q current result, '"' ∉ s.data ∧ stripChars s.data = s.data := by
  intro cs
  induction cs with
  | nil =>
    intro q current result hres hcur s hs
    unfold parseLineLoop at hs
    rw [List.mem_append] at hs
    rcases hs with hs | hs
    · exact hres s hs
    · simp at hs
      subst hs
      exact ⟨fun hm => hcur (mem_stripChars hm), stripChars_idem current⟩
  | cons c rest ih =>
    intro q current result hres hcur s hs
    unfold parseLineLoop at hs
    by_cases h1 : c = '"'
    · rw [if_pos h1] at hs
      exact ih _ _ _ hres hcur s hs
    · rw [if_neg h1] at hs
      by_cases h2 : c = ',' ∧ q = false
      · rw [if_pos h2] at hs
        refine ih _ _ _ ?_ (by simp) s hs
        intro t ht
        rw [List.mem_append] at ht
        rcases ht with ht | ht
        · exact hres t ht
        · simp at ht
          subst ht
          exact ⟨fun hm => hcur (mem_stripChars hm), stripChars_idem current⟩
      · rw [if_neg h2] at hs
        refine ih _ _ _ hres ?_ s hs
        intro hm
        rw [List.mem_append] at hm
        rcases hm with hm | hm
        · exact hcur hm
        · simp at hm
          exact h1 hm.symm

/-- A conditional string fold emits exactly the concatenation of the rendered
rows that pass the filter. -/
lemma foldl_if_filter (headers : List String) :
    ∀ (rows : List (List String)) (init : String),
      rows.foldl
        (fun md row => if row.length = headers.length then md ++ rowLine row else md) init
        = init ++ strConcat ((rows.filter (fun row => row.length = headers.length)).map rowLine) := by
  intro rows
  induction rows with
  | nil => intro init; simp [strConcat, String.append_empty]
  | cons r rs ih =>
    intro init
    by_cases h : r.length = headers.length
    · simp only [List.foldl_cons, if_pos h]
      rw [ih]
      have hf : (r :: rs).filter (fun row => row.length = headers.length)
          = r :: rs.filter (fun row => row.length = headers.length) := by
        simp [List.filter_cons, h]
      rw [hf, List.map_cons]
      simp only [strConcat]
      rw [String.append_assoc]
    · simp only [List.foldl_cons, if_neg h]
      rw [ih]
      have hf : (r :: rs).filter (fun row => row.length = headers.length)
          = rs.filter (fun row => row.length = headers.length) := by
        simp [List.filter_cons, h]
      rw [hf]

/-- C1: in the markdown table returned by the CSV formatter every emitted
data row has exactly the header's cell count, parsed rows with a different
cell count are omitted (never padded or truncated), and the specified input
with a ragged middle row yields only the two matching data rows. -/
theorem csv_ragged_rows_dropped :
    (∀ c row, row ∈ csvDataRowsOut c → row.length = (csvHeaderCells c).length)
    ∧ (∀ c, parse_csv_to_markdown c =
        match csvRows c with
        | [] => ""
        | headers :: _ =>
          "## Document Data\n\n" ++ headerLine headers ++ sepLine headers
            ++ strConcat ((csvDataRowsOut c).map rowLine))
    ∧ parse_csv_to_markdown "a,b\n1,2\n3,4,5\n6,7"
        = "## Document Data\n\n| a | b |\n|---|---|\n| 1 | 2 |\n| 6 | 7 |\n"
    ∧ csvHeaderCells "a,b\n1,2\n3,4,5\n6,7" = ["a", "b"]
    ∧ csvDataRowsOut "a,b\n1,2\n3,4,5\n6,7" = [["1", "2"], ["6", "7"]] := by
  refine ⟨?_, ?_, by decide, by decide, by decide⟩
  · intro c row h
    unfold csvDataRowsOut at h
    rcases hr : csvRows c with _ | ⟨headers, rest⟩
    · rw [hr] at h; simp at h
    · rw [hr] at h
      have := List.of_mem_filter h
      simp at this
      rw [csvHeaderCells, hr]
      simpa using this
  · intro c
    unfold parse_csv_to_markdown csvDataRowsOut csvRows
    rcases hl : csvLines c with _ | ⟨l, ls⟩
    · simp
    · simp only [hl, List.map_cons]
      rw [if_neg (by simp)]
      rw [foldl_if_filter]

/-- Witness for C1 at the specified input: the first emitted data row is a
member of the emitted rows and has the header's cell count. -/
theorem csv_ragged_rows_dropped_witness :
    ["1", "2"] ∈ csvDataRowsOut "a,b\n1,2\n3,4,5\n6,7" ∧
    (["1", "2"] : List String).length
      = (csvHeaderCells "a,b\n1,2\n3,4,5\n6,7").length :=
  ⟨by decide, csv_ragged_rows_dropped.1 _ _ (by decide)⟩

/-- C2: the line scanner toggles on double quotes without emitting them (so a
doubled quote yields no literal quote character), treats a comma as a
delimiter only outside quotes, appends all other characters, flushes the
final cell at line end, and trims every flushed cell; the specified quoted
input yields header cells a,b and c. -/
theorem csv_line_scanner :
    (∀ line cell, cell ∈ parse_csv_line line →
        '"' ∉ cell.data ∧ stripChars cell.data = cell.data)
    ∧ parse_csv_line "\"a,b\",c".data = ["a,b", "c"]
    ∧ csvHeaderCells "\"a,b\",c\n1,2" = ["a,b", "c"]
    ∧ parse_csv_line "a\"\"b".data = ["ab"]
    ∧ parse_csv_line "a,b".data = ["a", "b"]
    ∧ parse_csv_line " x , y ".data = ["x", "y"]
    ∧ parse_csv_line "a,".data = ["a", ""] := by
  refine ⟨?_, by decide, by decide, by decide, by decide, by decide, by decide⟩
  intro line cell h
  exact parseLineLoop_cells line false [] [] (by simp) (by simp) cell h

/-- Witness for C2: the quoted first cell of the specified input is an
emitted cell, contains no double quote, and is strip-fixed. -/
theorem csv_line_scanner_witness :
    "a,b" ∈ parse_csv_line "\"a,b\",c".data ∧
    '"' ∉ "a,b".data ∧ stripChars "a,b".data = "a,b".data :=
  ⟨by decide, csv_line_scanner.1 "\"a,b\",c".data "a,b" (by decide)⟩


/-! Supporting lemmas for the gate, the adapters and the dispatch. -/

/-- The PDF adapter call either rejects as unavailable before any work, or
fails conversion, or succeeds; it produces no other error. -/
lemma parse_pdf_error_shape (env : DoclingEnv) (c : List Nat) (n : String) :
    ∀ e, (parse_pdf_with_docling env c n).1 = .error e →
      e = .doclingUnavailablePdf ∨ ∃ m, e = .pdfConversionFailed m := by
  intro e h
  unfold parse_pdf_with_docling at h
  split at h
  · simp at h
    exact Or.inl h.symm
  · split at h
    · simp at h
      exact Or.inr ⟨_, h.symm⟩
    · simp at h

/-- The image adapter call either rejects as unavailable before any work, or
fails conversion, or succeeds; it produces no other error. -/
lemma parse_image_error_shape (env : DoclingEnv) (c : List Nat) (n : String) :
    ∀ e, (parse_image_with_docling env c n).1 = .error e →
      e = .doclingUnavailableImage ∨ ∃ m, e = .imageConversionFailed m := by
  intro e h
  unfold parse_image_with_docling at h
  split at h
  · simp at h
    exact Or.inl h.symm
  · split at h
    · simp at h
      exact Or.inr ⟨_, h.symm⟩
    · simp at h

/-- When Docling is unavailable the PDF adapter fails with 503 before any
work: no temporary file, no converter call. -/
lemma pdf_unavailable (env : DoclingEnv) (c : List Nat) (n : String)
    (h : env.doclingAvailable = false ∨ env.converterInit = false) :
    parse_pdf_with_docling env c n = (.error .doclingUnavailablePdf, noConvEffects) := by
  unfold parse_pdf_with_docling
  rw [if_pos h]

/-- When Docling is unavailable the image adapter fails with 503 before any
work: no temporary file, no converter call. -/
lemma image_unavailable (env : DoclingEnv) (c : List Nat) (n : String)
    (h : env.doclingAvailable = false ∨ env.converterInit = false) :
    parse_image_with_docling env c n = (.error .doclingUnavailableImage, noConvEffects) := by
  unfold parse_image_with_docling
  rw [if_pos h]

/-- Whenever the PDF adapter creates a temporary file it also deletes it. -/
lemma pdf_fx_cleanup (env : DoclingEnv) (c : List Nat) (n : String) :
    (parse_pdf_with_docling env c n).2.tmpCreated = true →
      (parse_pdf_with_docling env c n).2.tmpDeleted = true := by
  unfold parse_pdf_with_docling
  split
  · simp [noConvEffects]
  · split <;> simp

/-- Whenever the image adapter creates a temporary file it also deletes it. -/
lemma image_fx_cleanup (env : DoclingEnv) (c : List Nat) (n : String) :
    (parse_image_with_docling env c n).2.tmpCreated = true →
      (parse_image_with_docling env c n).2.tmpDeleted = true := by
  unfold parse_image_with_docling
  split
  · simp [noConvEffects]
  · split <;> simp

/-- The effects of a whole request are those of the CSV or gate path, which
touch nothing, or those of one adapter call. -/
lemma parse_document_fx (env : DoclingEnv) (file : ReqFile) :
    (parse_document env file).2 = noConvEffects
    ∨ (parse_document env file).2
        = (parse_pdf_with_docling env file.content (effFilename file)).2
    ∨ (parse_document env file).2
        = (parse_image_with_docling env file.content (effFilename file)).2 := by
  simp only [parse_document]
  split
  · exact Or.inl rfl
  · split
    · exact Or.inl rfl
    · split
      · split
        · exact Or.inl rfl
        · exact Or.inl rfl
      · split
        · split
          · rename_i heq
            exact Or.inr (Or.inl (by rw [heq]))
          · rename_i heq
            exact Or.inr (Or.inl (by rw [heq]))
        · split
          · split
            · rename_i heq
              exact Or.inr (Or.inr (by rw [heq]))
            · rename_i heq
              exact Or.inr (Or.inr (by rw [heq]))
          · exact Or.inl rfl

/-- Exhaustive origin analysis of every error parse_document can return,
with the branch conditions that lead to it. -/
lemma parse_document_err_origin (env : DoclingEnv) (file : ReqFile) (e : ParseError)
    (h : (parse_document env file).1 = .err e) :
    (e = .fileTooLarge file.content.length ∧ MAX_FILE_SIZE < file.content.length)
    ∨ (e = .unsupportedType ∧ ¬ MAX_FILE_SIZE < file.content.length
        ∧ hasValidExtension (effFilename file) = false
        ∧ hasValidType (effContentType file) = false)
    ∨ (e = .internalError decodeErrorMessage
        ∧ csvCond (effFilename file) (effContentType file) = true
        ∧ utf8Decode file.content = none)
    ∨ ((e = .doclingUnavailablePdf ∨ ∃ m, e = .pdfConversionFailed m)
        ∧ csvCond (effFilename file) (effContentType file) = false
        ∧ pdfCond (effFilename file) (effContentType file) = true)
    ∨ ((e = .doclingUnavailableImage ∨ ∃ m, e = .imageConversionFailed m)
        ∧ csvCond (effFilename file) (effContentType file) = false
        ∧ pdfCond (effFilename file) (effContentType file) = false
        ∧ imageCond (effFilename file) (effContentType file) = true)
    ∨ (e = .unsupportedDispatch
        ∧ ¬(hasValidExtension (effFilename file) = false
            ∧ hasValidType (effContentType file) = false)
        ∧ csvCond (effFilename file) (effContentType file) = false
        ∧ pdfCond (effFilename file) (effContentType file) = false
        ∧ imageCond (effFilename file) (effContentType file) = false) := by
  simp only [parse_document] at h
  split at h
  · rename_i hsize
    simp at h
    exact Or.inl ⟨h.symm, hsize⟩
  · rename_i hsize
    split at h
    · rename_i hgate
      simp at h
      exact Or.inr (Or.inl ⟨h.symm, hsize, hgate.1, hgate.2⟩)
    · rename_i hgate
      split at h
      · rename_i hcsv
        split at h
        · rename_i hdec
          simp at h
          exact Or.inr (Or.inr (Or.inl ⟨h.symm, hcsv, hdec⟩))
        · simp at h
      · rename_i hcsv
        split at h
        · rename_i hpdf
          split at h
          · rename_i e' fx heq
            simp at h
            have := parse_pdf_error_shape env file.content (effFilename file) e'
              (by rw [heq])
            exact Or.inr (Or.inr (Or.inr (Or.inl
              ⟨h ▸ this, by simpa using hcsv, hpdf⟩)))
          · simp at h
        · rename_i hpdf
          split at h
          · rename_i himg
            split at h
            · rename_i e' fx heq
              simp at h
              have := parse_image_error_shape env file.content (effFilename file) e'
                (by rw [heq])
              exact Or.inr (Or.inr (Or.inr (Or.inr (Or.inl
                ⟨h ▸ this, by simpa using hcsv, by simpa using hpdf, himg⟩))))
            · simp at h
          · rename_i himg
            simp at h
            exact Or.inr (Or.inr (Or.inr (Or.inr (Or.inr
              ⟨h.symm, hgate, by simpa using hcsv, by simpa using hpdf,
                by simpa using himg⟩))))

/-- A list is a Boolean prefix of itself followed by anything. -/
lemma isPrefixOf_self_append (l t : List Char) : List.isPrefixOf l (l ++ t) = true := by
  induction l with
  | nil => simp [List.isPrefixOf]
  | cons c cs ih => simp [List.isPrefixOf, ih]

/-- C3: the upload gate rejects with the FileTooLarge HTTP 400 error exactly
when the byte length strictly exceeds 10485760 bytes; the rejection detail
interpolates the size in MiB to two decimal places, and one byte over the
limit renders as 10.00. -/
theorem file_too_large_gate :
    (∀ env file, (∃ k, (parse_document env file).1 = .err (.fileTooLarge k))
        ↔ MAX_FILE_SIZE < file.content.length)
    ∧ (∀ env file, MAX_FILE_SIZE < file.content.length →
        parse_document env file
          = (.err (.fileTooLarge file.content.length), noConvEffects))
    ∧ (∀ n, (ParseError.fileTooLarge n).status = 400)
    ∧ (∀ n, (ParseError.fileTooLarge n).detail
        = "File size exceeds 10MB limit. Your file is " ++ formatMB n
            ++ "MB. Please upload a smaller file.")
    ∧ MAX_FILE_SIZE = 10485760
    ∧ formatMB 10485761 = "10.00" := by
  have hbig : ∀ env file, MAX_FILE_SIZE < file.content.length →
      parse_document env file
        = (.err (.fileTooLarge file.content.length), noConvEffects) := by
    intro env file h
    simp only [parse_document]
    rw [if_pos h]
  refine ⟨?_, hbig, fun n => rfl, fun n => rfl, by decide, by decide⟩
  intro env file
  constructor
  · rintro ⟨k, hk⟩
    rcases parse_document_err_origin env file _ hk with h | h | h | h | h | h
    · exact h.2
    · simp at h
    · simp at h
    · simp at h
    · simp at h
    · simp at h
  · intro h
    exact ⟨file.content.length, by rw [hbig env file h]⟩

/-- Witness for C3: a 10485761-byte file is rejected as too large and a
10485760-byte file is not. -/
theorem file_too_large_gate_witness :
    (∃ k, (parse_document ⟨false, false, .error "x"⟩
        ⟨some "a.csv", some "text/csv", List.replicate 10485761 0⟩).1
          = .err (.fileTooLarge k))
    ∧ ¬ (∃ k, (parse_document ⟨false, false, .error "x"⟩
        ⟨some "a.csv", some "text/csv", List.replicate 10485760 0⟩).1
          = .err (.fileTooLarge k)) := by
  constructor
  · exact (file_too_large_gate.1 _ _).mpr
      (by rw [List.length_replicate]; decide)
  · intro hc
    have h := (file_too_large_gate.1 _ _).mp hc
    rw [List.length_replicate] at h
    exact absurd h (by decide)

/-- C4: for files within the size limit, the gate rejects with the
UnsupportedType HTTP 400 error exactly when neither the lowercase filename
suffix nor the lowercased declared content type is acceptable; a report.txt
file declared text/plain is rejected. -/
theorem unsupported_type_gate :
    (∀ env file, ¬ MAX_FILE_SIZE < file.content.length →
      ((parse_document env file).1 = .err .unsupportedType ↔
        (hasValidExtension (effFilename file) = false
          ∧ hasValidType (effContentType file) = false)))
    ∧ ParseError.unsupportedType.status = 400
    ∧ (parse_document ⟨false, false, .error "x"⟩
        ⟨some "report.txt", some "text/plain", [104, 105]⟩).1
        = .err .unsupportedType := by
  refine ⟨?_, rfl, by decide⟩
  intro env file hsize
  constructor
  · intro h
    rcases parse_document_err_origin env file _ h with h | h | h | h | h | h
    · simp at h
    · exact ⟨h.2.2.1, h.2.2.2⟩
    · simp at h
    · simp at h
    · simp at h
    · simp at h
  · intro htypes
    simp only [parse_document]
    rw [if_neg hsize, if_pos htypes]

/-- Witness for C4: a file with an unsupported extension and unsupported
declared type, within the size limit, is rejected with UnsupportedType. -/
theorem unsupported_type_gate_witness :
    (parse_document ⟨true, true, .error "x"⟩
        ⟨some "notes.md", some "text/plain", [104]⟩).1 = .err .unsupportedType :=
  (unsupported_type_gate.1 _ _ (by decide)).mpr (by decide)

/-- C5: dispatch is priority-ordered with the CSV branch first: under a
passing gate, the CSV condition routes to the CSV formatter with output type
fixed to text/csv, the PDF branch is consulted only when the CSV condition
fails, and the image branch only when both fail; a file named data.csv with
declared type image/png is still parsed as CSV with output type text/csv,
whatever the converter state. -/
theorem csv_dispatch_priority :
    (∀ env file, ¬ MAX_FILE_SIZE < file.content.length →
      ¬(hasValidExtension (effFilename file) = false
          ∧ hasValidType (effContentType file) = false) →
      csvCond (effFilename file) (effContentType file) = true →
      (parse_document env file).1 = csvResult file)
    ∧ (∀ env file, ¬ MAX_FILE_SIZE < file.content.length →
      ¬(hasValidExtension (effFilename file) = false
          ∧ hasValidType (effContentType file) = false) →
      csvCond (effFilename file) (effContentType file) = false →
      pdfCond (effFilename file) (effContentType file) = true →
      (parse_document env file).1 = pdfResult env file)
    ∧ (∀ env file, ¬ MAX_FILE_SIZE < file.content.length →
      ¬(hasValidExtension (effFilename file) = false
          ∧ hasValidType (effContentType file) = false) →
      csvCond (effFilename file) (effContentType file) = false →
      pdfCond (effFilename file) (effContentType file) = false →
      imageCond (effFilename file) (effContentType file) = true →
      (parse_document env file).1 = imageResult env file)
    ∧ (∀ env, (parse_document env ⟨some "data.csv", some "image/png", [97]⟩).1
        = .ok (parse_csv_to_markdown "a") "data.csv" "text/csv" 1) := by
  have hcsv : ∀ env file, ¬ MAX_FILE_SIZE < file.content.length →
      ¬(hasValidExtension (effFilename file) = false
          ∧ hasValidType (effContentType file) = false) →
      csvCond (effFilename file) (effContentType file) = true →
      (parse_document env file).1 = csvResult file := by
    intro env file hs hg hc
    simp only [parse_document]
    rw [if_neg hs, if_neg hg, if_pos hc]
    cases hd : utf8Decode file.content <;> simp [csvResult, hd]
  refine ⟨hcsv, ?_, ?_, ?_⟩
  · intro env file hs hg hc hp
    simp only [parse_document]
    rw [if_neg hs, if_neg hg, if_neg (by simp [hc]), if_pos hp]
    rcases hpd : parse_pdf_with_docling env file.content (effFilename file) with ⟨r, fx⟩
    cases r <;> simp [pdfResult, hpd]
  · intro env file hs hg hc hp hi
    simp only [parse_document]
    rw [if_neg hs, if_neg hg, if_neg (by simp [hc]), if_neg (by simp [hp]), if_pos hi]
    rcases him : parse_image_with_docling env file.content (effFilename file) with ⟨r, fx⟩
    cases r <;> simp [imageResult, him]
  · intro env
    have h := hcsv env ⟨some "data.csv", some "image/png", [97]⟩
      (by decide) (by decide) (by decide)
    rw [h]
    decide

/-- Witness for C5: with an unavailable converter, a PDF-named file with PDF
content type and no CSV signal takes the PDF branch. -/
theorem csv_dispatch_priority_witness :
    (parse_document ⟨false, true, .error "x"⟩
        ⟨some "doc.pdf", some "application/pdf", [37]⟩).1
      = pdfResult ⟨false, true, .error "x"⟩
          ⟨some "doc.pdf", some "application/pdf", [37]⟩ :=
  csv_dispatch_priority.2.1 _ _ (by decide) (by decide) (by decide) (by decide)

/-- C6: whenever the converter is unavailable, both adapter paths fail
immediately with the 503 error and report no temporary storage and no
converter invocation; a whole request in such a state produces no conversion
effects at all, and a dispatched PDF upload yields the 503 error. -/
theorem docling_unavailable_503 :
    (∀ env c n, (env.doclingAvailable = false ∨ env.converterInit = false) →
      parse_pdf_with_docling env c n = (.error .doclingUnavailablePdf, noConvEffects)
      ∧ parse_image_with_docling env c n
          = (.error .doclingUnavailableImage, noConvEffects))
    ∧ ParseError.doclingUnavailablePdf.status = 503
    ∧ ParseError.doclingUnavailableImage.status = 503
    ∧ noConvEffects.tmpCreated = false
    ∧ noConvEffects.converterCalled = false
    ∧ (∀ env file, (env.doclingAvailable = false ∨ env.converterInit = false) →
        (parse_document env file).2 = noConvEffects)
    ∧ (∀ env file, (env.doclingAvailable = false ∨ env.converterInit = false) →
        ¬ MAX_FILE_SIZE < file.content.length →
        ¬(hasValidExtension (effFilename file) = false
            ∧ hasValidType (effContentType file) = false) →
        csvCond (effFilename file) (effContentType file) = false →
        pdfCond (effFilename file) (effContentType file) = true →
        (parse_document env file).1 = .err .doclingUnavailablePdf) := by
  refine ⟨fun env c n h => ⟨pdf_unavailable env c n h, image_unavailable env c n h⟩,
    rfl, rfl, rfl, rfl, ?_, ?_⟩
  · intro env file h
    rcases parse_document_fx env file with hf | hf | hf
    · exact hf
    · rw [hf, pdf_unavailable _ _ _ h]
    · rw [hf, image_unavailable _ _ _ h]
  · intro env file h hs hg hc hp
    simp only [parse_document]
    rw [if_neg hs, if_neg hg, if_neg (by simp [hc]), if_pos hp]
    rw [pdf_unavailable _ _ _ h]

/-- Witness for C6: with the availability flag down, the PDF adapter call
returns the 503 error with no effects, and a .pdf upload request yields the
503 error. -/
theorem docling_unavailable_503_witness :
    parse_pdf_with_docling ⟨false, false, .error "x"⟩ [1] "f.pdf"
        = (.error .doclingUnavailablePdf, noConvEffects)
    ∧ (parse_document ⟨false, false, .error "x"⟩ ⟨some "f.pdf", none, [1]⟩).1
        = .err .doclingUnavailablePdf :=
  ⟨(docling_unavailable_503.1 _ [1] "f.pdf" (Or.inl rfl)).1,
   docling_unavailable_503.2.2.2.2.2.2 _ _ (Or.inl rfl)
     (by decide) (by decide) (by decide) (by decide)⟩

/-- C7: on every exit path of a conversion call, and of a whole request, a
created temporary file is also deleted. -/
theorem tmp_file_cleanup :
    (∀ env c n,
      ((parse_pdf_with_docling env c n).2.tmpCreated = true →
        (parse_pdf_with_docling env c n).2.tmpDeleted = true)
      ∧ ((parse_image_with_docling env c n).2.tmpCreated = true →
        (parse_image_with_docling env c n).2.tmpDeleted = true))
    ∧ (∀ env file, (parse_document env file).2.tmpCreated = true →
        (parse_document env file).2.tmpDeleted = true) := by
  refine ⟨fun env c n => ⟨pdf_fx_cleanup env c n, image_fx_cleanup env c n⟩, ?_⟩
  intro env file h
  rcases parse_document_fx env file with hf | hf | hf
  · rw [hf] at h
    simp [noConvEffects] at h
  · rw [hf] at h ⊢
    exact pdf_fx_cleanup _ _ _ h
  · rw [hf] at h ⊢
    exact image_fx_cleanup _ _ _ h

/-- Witness for C7: a conversion whose converter call throws creates a
temporary file and deletes it. -/
theorem tmp_file_cleanup_witness :
    (parse_pdf_with_docling ⟨true, true, .error "boom"⟩ [1] "f.pdf").2.tmpCreated = true
    ∧ (parse_pdf_with_docling ⟨true, true, .error "boom"⟩ [1] "f.pdf").2.tmpDeleted
        = true :=
  ⟨by decide, (tmp_file_cleanup.1 _ [1] "f.pdf").1 (by decide)⟩

/-- C8: every filename/content-type combination that passes the gate check
satisfies the CSV, PDF or image dispatch condition, so the final dispatch
rejection branch is unreachable: no request ever returns the unsupported
dispatch error. -/
theorem dispatch_else_unreachable :
    (∀ filename content_type,
      (hasValidExtension filename || hasValidType content_type) = true →
      (csvCond filename content_type || pdfCond filename content_type
        || imageCond filename content_type) = true)
    ∧ (∀ env file, (parse_document env file).1 ≠ .err .unsupportedDispatch) := by
  have hcover : ∀ filename content_type,
      (hasValidExtension filename || hasValidType content_type) = true →
      (csvCond filename content_type || pdfCond filename content_type
        || imageCond filename content_type) = true := by
    intro fn ct h
    rw [Bool.or_eq_true] at h
    rcases h with h | h
    · unfold hasValidExtension at h
      rw [List.any_eq_true] at h
      obtain ⟨ext, hmem, hend⟩ := h
      simp only [valid_extensions, List.mem_cons, List.not_mem_nil, or_false] at hmem
      rcases hmem with rfl | rfl | rfl | rfl | rfl
      · simp [csvCond, pdfCond, imageCond, hend]
      · simp [csvCond, pdfCond, imageCond, hend]
      · simp [csvCond, pdfCond, imageCond, hend]
      · simp [csvCond, pdfCond, imageCond, hend]
      · simp [csvCond, pdfCond, imageCond, hend]
    · unfold hasValidType at h
      rw [List.any_eq_true] at h
      obtain ⟨t, hmem, heq⟩ := h
      rw [beq_iff_eq] at heq
      simp only [valid_types, List.mem_cons, List.not_mem_nil, or_false] at hmem
      rcases hmem with rfl | rfl | rfl | rfl | rfl
      · simp [csvCond, pdfCond, imageCond, heq,
          (by decide : containsSubStr "pdf" "application/pdf" = true)]
      · simp [csvCond, pdfCond, imageCond, heq,
          (by decide : containsSubStr "csv" "text/csv" = true)]
      · simp [csvCond, pdfCond, imageCond, heq]
      · simp [csvCond, pdfCond, imageCond, heq]
      · simp [csvCond, pdfCond, imageCond, heq]
  refine ⟨hcover, ?_⟩
  intro env file h
  rcases parse_document_err_origin env file _ h with hh | hh | hh | hh | hh | hh
  · simp at hh
  · simp at hh
  · simp at hh
  · simp at hh
  · simp at hh
  · obtain ⟨-, hgate, hc, hp, hi⟩ := hh
    have hor : (hasValidExtension (effFilename file)
        || hasValidType (effContentType file)) = true := by
      cases hx : hasValidExtension (effFilename file) with
      | true => simp
      | false =>
        cases hy : hasValidType (effContentType file) with
        | true => simp
        | false => exact absurd ⟨hx, hy⟩ hgate
    have := hcover _ _ hor
    rw [hc, hp, hi] at this
    simp at this

/-- Witness for C8: a gate-passing CSV extension is covered by the dispatch
conditions, and a concrete gate-passing upload does not hit the final
rejection branch. -/
theorem dispatch_else_unreachable_witness :
    (csvCond "data.csv" "" || pdfCond "data.csv" ""
      || imageCond "data.csv" "") = true
    ∧ (parse_document ⟨true, true, .error "x"⟩ ⟨some "scan.png", none, [2]⟩).1
        ≠ .err .unsupportedDispatch :=
  ⟨dispatch_else_unreachable.1 "data.csv" "" (by decide),
   dispatch_else_unreachable.2 _ _⟩

/-- C9: a CSV-routed upload whose bytes are not valid UTF-8 fails through the
generic internal-error handler with HTTP 500 and a detail message beginning
with the failed-to-parse-document prefix, not with a 400 rejection. -/
theorem csv_invalid_utf8_500 :
    (∀ env file, ¬ MAX_FILE_SIZE < file.content.length →
      ¬(hasValidExtension (effFilename file) = false
          ∧ hasValidType (effContentType file) = false) →
      csvCond (effFilename file) (effContentType file) = true →
      utf8Decode file.content = none →
      (parse_document env file).1 = .err (.internalError decodeErrorMessage))
    ∧ (∀ m, (ParseError.internalError m).status = 500)
    ∧ (∀ m, List.isPrefixOf "Failed to parse document:".data
        ((ParseError.internalError m).detail).data = true) := by
  refine ⟨?_, fun m => rfl, ?_⟩
  · intro env file hs hg hc hd
    simp only [parse_document]
    rw [if_neg hs, if_neg hg, if_pos hc, hd]
  · intro m
    have h1 : ((ParseError.internalError m).detail).data
        = ("Failed to parse document: ").data ++ m.data := by
      simp [ParseError.detail]
    have h2 : ("Failed to parse document: ").data
        = "Failed to parse document:".data ++ [' '] := by decide
    rw [h1, h2, List.append_assoc]
    exact isPrefixOf_self_append _ _

/-- Witness for C9: a one-byte 0xFF payload with a .csv filename is routed to
CSV and fails with the internal decode error. -/
theorem csv_invalid_utf8_500_witness :
    (parse_document ⟨true, true, .error "x"⟩ ⟨some "bad.csv", none, [255]⟩).1
      = .err (.internalError decodeErrorMessage) :=
  csv_invalid_utf8_500.1 _ _ (by decide) (by decide) (by decide) (by decide)

/-- C10: a missing filename is replaced by the literal document and a missing
content type by the empty string; a file with no name declared text/csv
passes the gate through its type, takes the CSV path, and the success
response reports fileName document and fileSize equal to the byte length. -/
theorem missing_filename_document :
    (∀ f : ReqFile, f.filename? = none → effFilename f = "document")
    ∧ (∀ f : ReqFile, f.filename? = some "" → effFilename f = "document")
    ∧ (∀ f : ReqFile, f.contentType? = none → effContentType f = "")
    ∧ (∀ env (content : List Nat) text, ¬ MAX_FILE_SIZE < content.length →
        utf8Decode content = some text →
        (parse_document env ⟨none, some "text/csv", content⟩).1
          = .ok (parse_csv_to_markdown text) "document" "text/csv" content.length) := by
  refine ⟨?_, ?_, ?_, ?_⟩
  · intro f h
    simp [effFilename, h, pyOrStr]
  · intro f h
    simp [effFilename, h, pyOrStr]
  · intro f h
    simp [effContentType, h, pyOrStr]
  · intro env content text hs hd
    have h1 : effFilename ⟨none, some "text/csv", content⟩ = "document" := rfl
    have h2 : effContentType ⟨none, some "text/csv", content⟩ = "text/csv" := rfl
    have h3 : (⟨none, some "text/csv", content⟩ : ReqFile).content = content := rfl
    simp only [parse_document, h1, h2, h3]
    rw [if_neg hs, if_neg (by decide), if_pos (by decide), hd]

/-- Witness for C10: uploading the bytes of a,b with no filename and type
text/csv succeeds on the CSV path with fileName document. -/
theorem missing_filename_document_witness :
    (parse_document ⟨true, true, .error "x"⟩
        ⟨none, some "text/csv", [97, 44, 98]⟩).1
      = .ok (parse_csv_to_markdown "a,b") "document" "text/csv"
          ([97, 44, 98] : List Nat).length :=
  missing_filename_document.2.2.2 _ _ "a,b" (by decide) (by decide)
